import Mathlib

/-!
Verification of the repository's two scripts against its specification.

Part 1 embeds the MCP Parquet summary tool
(`src/MCP/demo_server/tools/parquet_tools.py`).  The registered tool
`summaries_parquet_file` is a one-line pass-through to
`read_parquet_summary` from `utils/file_reader.py`; that helper module is
not among the sources, so it is modelled from the specification (section
4.4 File Summary Provider).

Part 2 embeds the Streamlit front-end
(`src/Agent Deployment/Local/OpenAI Agents SDK with Docker/app.py`): the
guardrail function, the triage-agent configuration and the submit handler.
The hosted agents SDK runtime (`Runner.run`, tripwire semantics, handoff
selection) is an external collaborator and is modelled from the
specification (sections 4.1 and 4.2).
-/

/-! ### Part 1: the Parquet summary tool -/

/-- Content found at a path of the modelled file system: either a valid
Parquet file, of which only the row and column counts matter to the tool,
or a file in some other format. -/
inductive FileContent where
  | parquet (rows : Nat) (cols : Nat)
  | other
deriving DecidableEq

/-- A file system: an association of paths (component lists) to contents.
Absent paths are files that do not exist. -/
def FileSystem : Type := List (List String × FileContent)

/-- Errors of the File Summary Provider, from the spec's taxonomy
(section 7): FileNotFound when the file does not exist, UnreadableFormat
when it is not valid Parquet. -/
inductive ToolError where
  | FileNotFound
  | UnreadableFormat
deriving DecidableEq

/-- The fixed data directory the spec designates for the tool
(section 4.4, and the docstring of `summaries_parquet_file`: the file
lives in the `/data` directory). -/
def dataDir : List String := ["data"]

/-- Split a character list at every path separator. -/
def splitCharsAux : List Char → List Char → List (List Char)
  | [], cur => [cur.reverse]
  | c :: rest, cur =>
    if c = '/' then cur.reverse :: splitCharsAux rest []
    else splitCharsAux rest (c :: cur)

/-- Split a filename into its path components. -/
def splitPath (s : String) : List String :=
  (splitCharsAux s.data []).map List.asString

/-- Normalise a component list: drop empty and `.` components and let a
`..` component cancel the preceding one, as operating-system path
resolution does. -/
def normalizePath (comps : List String) : List String :=
  comps.foldl
    (fun acc c =>
      if c = "" ∨ c = "." then acc
      else if c = ".." then acc.dropLast
      else acc ++ [c])
    []

/-- Modelled from the spec: the path-resolution step of
`read_parquet_summary` in `utils/file_reader.py`, which is absent from
the sources.  Per section 4.4 the filename is "constrained to reside in a
designated data directory (no path traversal outside it)": the resolver
joins the filename onto the data directory and accepts the resolved path
only when it still lies inside that directory. -/
def resolveInData (filename : String) : Option (List String) :=
  if (normalizePath (dataDir ++ splitPath filename)).take dataDir.length
      = dataDir
  then some (normalizePath (dataDir ++ splitPath filename))
  else none

/-- The single path an invocation with the given filename may read:
empty when the filename is refused by the resolver. -/
def accessedPaths (filename : String) : List (List String) :=
  match resolveInData filename with
  | none => []
  | some p => [p]

/-- Modelled from the spec: the summary string "combining both counts"
returned by the File Summary Provider (section 4.4). -/
def summaryLine (filename : String) (rows cols : Nat) : String :=
  "File " ++ filename ++ " has " ++ toString rows ++ " rows and "
    ++ toString cols ++ " columns."

/-- Look a path up in the modelled file system. -/
def FileSystem.find (fs : FileSystem) (p : List String) : Option FileContent :=
  match fs with
  | [] => none
  | (q, c) :: rest => if q = p then some c else FileSystem.find rest p

/-- Modelled from the spec: `read_parquet_summary` (section 4.4 File
Summary Provider).  Opens the named file inside the data directory and
reports its row and column counts; fails with FileNotFound when the file
does not exist (or the name resolves outside the data directory, hence
names no file of that directory) and with UnreadableFormat when the file
is not valid Parquet.  No caching: the result is a function of the
current file-system state alone. -/
def read_parquet_summary (fs : FileSystem) (filename : String) :
    Except ToolError String :=
  match resolveInData filename with
  | none => Except.error ToolError.FileNotFound
  | some p =>
    match fs.find p with
    | none => Except.error ToolError.FileNotFound
    | some (FileContent.parquet rows cols) =>
        Except.ok (summaryLine filename rows cols)
    | some FileContent.other => Except.error ToolError.UnreadableFormat

/-- The registered MCP tool, from
`src/MCP/demo_server/tools/parquet_tools.py`: its body is exactly
`return read_parquet_summary(filename)`. -/
def summaries_parquet_file (fs : FileSystem) (filename : String) :
    Except ToolError String :=
  read_parquet_summary fs filename

/-- A result delivered to the tool-calling protocol: a success payload or
an error report. -/
inductive ToolResult where
  | ok (text : String)
  | error (e : ToolError)
deriving DecidableEq

/-- Modelled from the spec: the hosting protocol's error envelope
(sections 4.5 and 7) — a failure raised by the tool body reaches the
protocol as an error result, never as a crash; every invocation yields a
`ToolResult`. -/
def mcpInvoke (fs : FileSystem) (filename : String) : ToolResult :=
  match summaries_parquet_file fs filename with
  | Except.ok s => ToolResult.ok s
  | Except.error e => ToolResult.error e

/-- Two successive invocations of the tool: the first against the
file-system state at the first call, the second against the state at the
second call.  The tool keeps no state of its own between the calls. -/
def callTwice (fs1 fs2 : FileSystem) (filename : String) :
    ToolResult × ToolResult :=
  (mcpInvoke fs1 filename, mcpInvoke fs2 filename)

/-- A sample path inside the data directory, used by witnesses. -/
def samplePath : List String := ["data", "sample.parquet"]

/-- A path of a non-Parquet file inside the data directory. -/
def badPath : List String := ["data", "bad.bin"]

/-- A concrete file system: one valid Parquet file of 10 rows and 3
columns and one file in another format. -/
def fsDemo : FileSystem :=
  [(samplePath, FileContent.parquet 10 3), (badPath, FileContent.other)]

/-- A sample filename. -/
def sampleName : String := "sample.parquet"

/-- A filename naming no file of `fsDemo`. -/
def missingName : String := "missing.parquet"

/-- The filename of the non-Parquet file of `fsDemo`. -/
def badName : String := "bad.bin"

/-! ### Theorems for Part 1 -/

/-- Claim C2: every invocation of the Parquet summary tool reads only
paths inside the designated fixed data directory — for any filename
argument, including ones with `..` components, each path the tool
accesses has the data directory as a prefix, so no path traversal outside
it is possible. -/
theorem tool_reads_only_data_dir (filename : String) (p : List String)
    (hp : p ∈ accessedPaths filename) :
    p.take dataDir.length = dataDir := by
  unfold accessedPaths resolveInData at hp
  by_cases h :
      (normalizePath (dataDir ++ splitPath filename)).take dataDir.length
        = dataDir
  · rw [if_pos h] at hp
    simp only [List.mem_singleton] at hp
    subst hp
    exact h
  · rw [if_neg h] at hp
    simp at hp

/-- Witness for C2: the sample filename is accepted, its accessed path is
within the data directory. -/
theorem tool_reads_only_data_dir_w :
    samplePath.take dataDir.length = dataDir :=
  tool_reads_only_data_dir sampleName samplePath (by decide)

/-- Claim C3: when the filename names no existing file (every path the
invocation could read is absent from the file system, which also covers
names refused by the resolver), the tool protocol receives the
FileNotFound error result — an error, not a crash; and when the resolved
path holds a file that is not valid Parquet, the protocol receives the
UnreadableFormat error result. -/
theorem tool_error_results (fs : FileSystem) (filename : String) :
    ((∀ p ∈ accessedPaths filename, fs.find p = none) →
      mcpInvoke fs filename = ToolResult.error ToolError.FileNotFound) ∧
    (∀ p, resolveInData filename = some p →
      fs.find p = some FileContent.other →
      mcpInvoke fs filename = ToolResult.error ToolError.UnreadableFormat) := by
  constructor
  · intro habs
    cases hres : resolveInData filename with
    | none =>
      simp only [mcpInvoke, summaries_parquet_file, read_parquet_summary, hres]
    | some p =>
      have hmem : p ∈ accessedPaths filename := by
        unfold accessedPaths
        rw [hres]
        exact List.mem_singleton.mpr rfl
      simp only [mcpInvoke, summaries_parquet_file, read_parquet_summary,
        hres, habs p hmem]
  · intro p hres hfind
    simp only [mcpInvoke, summaries_parquet_file, read_parquet_summary,
      hres, hfind]

/-- Witness for C3: on `fsDemo`, the missing filename yields the
FileNotFound error result and the non-Parquet filename yields the
UnreadableFormat error result. -/
theorem tool_error_results_w :
    mcpInvoke fsDemo missingName = ToolResult.error ToolError.FileNotFound ∧
    mcpInvoke fsDemo badName = ToolResult.error ToolError.UnreadableFormat :=
  ⟨(tool_error_results fsDemo missingName).1 (by decide),
   (tool_error_results fsDemo badName).2 badPath (by decide) (by decide)⟩

/-- Claim C6: the tool is idempotent and uncached — two successive calls
against an unchanged file system return identical results (hence
identical row/column counts), and the second call's result is a function
of the file-system state at that call alone (every call re-reads the
file; nothing is remembered from the first call). -/
theorem tool_idempotent_no_cache (fs : FileSystem) (filename : String) :
    (callTwice fs fs filename).1 = (callTwice fs fs filename).2 ∧
    ∀ fs2, (callTwice fs fs2 filename).2 = mcpInvoke fs2 filename :=
  ⟨rfl, fun _ => rfl⟩

/-- Claim C9: the registered tool `summaries_parquet_file` returns exactly
`read_parquet_summary(filename)` on every file system and filename: a
pure pass-through wrapper with no local validation, transformation or
caching of the argument or the result. -/
theorem tool_is_pass_through (fs : FileSystem) (filename : String) :
    summaries_parquet_file fs filename = read_parquet_summary fs filename :=
  rfl

/-! ### Part 2: the Streamlit front-end (`app.py`) -/

/-- The structured guardrail output type declared in `app.py`
(`class ResearchOutput(BaseModel)`): an acceptance flag and a free-text
rationale. -/
structure ResearchOutput where
  is_research : Bool
  reasoning : String
deriving DecidableEq

/-- The guardrail function's return value, as in the agents SDK:
the structured verdict plus the tripwire flag. -/
structure GuardrailFunctionOutput where
  output_info : ResearchOutput
  tripwire_triggered : Bool
deriving DecidableEq

/-- A statically configured agent of `app.py`: a name, a handoff
description and instruction text (the guardrail agent additionally
declares `ResearchOutput` as its output type). -/
structure Agent where
  name : String
  handoff_description : String
  instructions : String
deriving DecidableEq

/-- `guardrail_agent` from `app.py`. -/
def guardrail_agent : Agent :=
  { name := "Guardrail Check"
    handoff_description := ""
    instructions := "Check if the user is asking about research." }

/-- `physics_research_agent` from `app.py`. -/
def physics_research_agent : Agent :=
  { name := "Physics Researcher"
    handoff_description := "Specialist agent for Physics Research"
    instructions := "You provide assistance with Physics Research. Explain your reasoning at each step and include examples." }

/-- `financial_research_agent` from `app.py`. -/
def financial_research_agent : Agent :=
  { name := "Financial Researcher"
    handoff_description := "Specialist agent for Financial Research"
    instructions := "You provide assistance with Financial Research. Explain important events and context clearly" }

/-- The triage agent's configuration from `app.py`: name, instructions,
the two configured handoff targets, and the research guardrail as its
single input guardrail. -/
structure TriageConfig where
  name : String
  instructions : String
  handoffs : List Agent

/-- `triage_agent` from `app.py`, with its two handoffs. -/
def triage_agent : TriageConfig :=
  { name := "Triage Agent"
    instructions := "You determine which agent to use based on user's research query."
    handoffs := [physics_research_agent, financial_research_agent] }

/-- Modelled from the spec: the hosted agent-execution runtime, an
external collaborator (sections 4.1 and 4.2).  `classify` is the external
classification call the Guardrail Evaluator delegates to (a run of
`guardrail_agent` producing a `ResearchOutput`); `select` is the
runtime's choice among the configured handoff targets, given as an index
into the candidate list; `respond` is a specialist agent's final textual
response to a query.  All three are deterministic functions of their
arguments. -/
structure Runtime where
  classify : String → ResearchOutput
  select : String → Nat
  respond : Agent → String → String

/-- `research_guardrail` from `app.py`: runs the guardrail agent on the
input, then returns its structured output unchanged as `output_info`
together with `tripwire_triggered = not final_output.is_research`. -/
def research_guardrail (rt : Runtime) (input_data : String) :
    GuardrailFunctionOutput :=
  { output_info := rt.classify input_data
    tripwire_triggered := !(rt.classify input_data).is_research }

/-- The specialist the runtime dispatches to for a given query: the
selected index taken inside the triage agent's configured handoff list. -/
def chooseSpecialist (rt : Runtime) (q : String) : Agent :=
  triage_agent.handoffs.getD (rt.select q % triage_agent.handoffs.length)
    physics_research_agent

/-- The tripwire signal raised by the runtime when an input guardrail
triggers, carrying the guardrail's structured output. -/
inductive RunError where
  | tripwire (output_info : ResearchOutput)
deriving DecidableEq

/-- Outcome of one `Runner.run(triage_agent, q)` call: which inputs were
sent to the guardrail, which specialist agents were invoked, and either
the final textual output or the tripwire signal. -/
structure RunResult where
  guardrailChecked : List String
  invoked : List Agent
  outcome : Except RunError String

/-- Modelled from the spec: `Runner.run(triage_agent, q)` of the external
runtime (section 4.2 Agent Router).  The input guardrail
(`research_guardrail`, embedded above from `app.py`) is evaluated first;
if its tripwire triggers, the run aborts with the tripwire signal and no
specialist is invoked; otherwise exactly one specialist from the
configured handoff set is selected, invoked, and its final textual
response returned. -/
def runnerRun (rt : Runtime) (q : String) : RunResult :=
  let go := research_guardrail rt q
  if go.tripwire_triggered then
    { guardrailChecked := [q]
      invoked := []
      outcome := Except.error (RunError.tripwire go.output_info) }
  else
    { guardrailChecked := [q]
      invoked := [chooseSpecialist rt q]
      outcome := Except.ok (rt.respond (chooseSpecialist rt q) q) }

/-- Observable user-interface events of one submit action. -/
inductive UIEvent where
  | spinnerStart
  | sleepEv (seconds : Nat)
  | spinnerStop
  | runtimeCall (query : String)
  | render (text : String)
deriving DecidableEq

/-- The submit handler of `main()` in `app.py`, as the sequence of
events it produces once the button is pressed: `with st.spinner(...):
time.sleep(10)` opens the busy indicator, sleeps ten seconds and closes
the indicator on block exit; only then is `Runner.run(triage_agent,
user_input)` awaited; `st.write(result.final_output)` runs only when the
call returned normally — a tripwire or other exception propagates out of
the script unhandled (the surrounding toolkit, not the script, displays
it), so the script itself renders nothing in that case. -/
def submitTrace (rt : Runtime) (q : String) : List UIEvent :=
  [UIEvent.spinnerStart, UIEvent.sleepEv 10, UIEvent.spinnerStop,
    UIEvent.runtimeCall q] ++
  (match (runnerRun rt q).outcome with
   | Except.ok t => [UIEvent.render t]
   | Except.error _ => [])

/-- Whether an event is an invocation of the external runtime. -/
def isCallEvent : UIEvent → Bool
  | UIEvent.runtimeCall _ => true
  | _ => false

/-- Number of external runtime invocations in a trace. -/
def countCalls (tr : List UIEvent) : Nat :=
  tr.countP isCallEvent

/-- Helper for `busyDuring`: walks the trace keeping the number of
currently open busy indicators. -/
def busyDuringAux : Nat → List UIEvent → Bool
  | _, [] => true
  | depth, UIEvent.spinnerStart :: rest => busyDuringAux (depth + 1) rest
  | depth, UIEvent.spinnerStop :: rest => busyDuringAux (depth - 1) rest
  | depth, UIEvent.runtimeCall _ :: rest =>
      decide (0 < depth) && busyDuringAux depth rest
  | depth, _ :: rest => busyDuringAux depth rest

/-- True when every external runtime invocation of the trace happens
while a busy indicator is open. -/
def busyDuring (tr : List UIEvent) : Bool :=
  busyDuringAux 0 tr

/-- The top-level credential wiring of `app.py`: `os.environ` together
with the key later handed to `set_tracing_export_api_key`. -/
structure AppStartupState where
  env : String → Option String
  tracing_export_api_key : Option String

/-- The environment-variable name `app.py` writes. -/
def apiKeyVar : String := "OPENAI_API_KEY"

/-- The top-level statements of `app.py` that handle the credential:
`os.environ["OPENAI_API_KEY"] = openai_key` runs unconditionally on
every script run with whatever the text input currently holds (the empty
string before any entry), and
`set_tracing_export_api_key(os.getenv("OPENAI_API_KEY"))` then reads the
same variable back. -/
def scriptStartup (env0 : String → Option String) (openai_key : String) :
    AppStartupState :=
  let env1 := fun k => if k = apiKeyVar then some openai_key else env0 k
  { env := env1
    tracing_export_api_key := env1 apiKeyVar }

/-- The empty string: what the query and credential text inputs hold
before any entry. -/
def emptyString : String := ""

/-- An environment-variable name other than the API key, for the frame
part of the credential theorem. -/
def homeVar : String := "HOME"

/-- A concrete runtime whose guardrail accepts every query and whose
specialists answer with a fixed text. -/
def rtAccept : Runtime :=
  { classify := fun _ => { is_research := true, reasoning := "asks about research" }
    select := fun _ => 0
    respond := fun _ _ => "physics answer" }

/-- A concrete runtime whose guardrail rejects every query. -/
def rtReject : Runtime :=
  { classify := fun _ => { is_research := false, reasoning := "not about research" }
    select := fun _ => 0
    respond := fun _ _ => "unused" }

/-- A concrete in-scope query used by witnesses. -/
def quarkQuery : String := "explain quark confinement"

/-- A concrete out-of-scope query used by witnesses. -/
def jokeQuery : String := "tell me a joke"

/-- The specialist the runtime selects always lies in the triage agent's
configured handoff set. -/
theorem chooseSpecialist_mem (rt : Runtime) (q : String) :
    chooseSpecialist rt q ∈ triage_agent.handoffs := by
  rcases Nat.mod_two_eq_zero_or_one (rt.select q) with h | h <;>
    simp [chooseSpecialist, triage_agent, h]

/-! ### Theorems for Part 2 -/

/-- Claim C1: whenever the Guardrail Evaluator returns acceptance flag
false, the run aborts with the tripwire signal before any specialist is
invoked; the signal carries the guardrail's structured output — hence its
rejection rationale — verbatim, and no successful routing outcome (no
`RoutingDecision`) is produced for such a query. -/
theorem guardrail_reject_no_specialist (rt : Runtime) (q : String)
    (h : (rt.classify q).is_research = false) :
    (runnerRun rt q).invoked = [] ∧
    (runnerRun rt q).outcome
      = Except.error (RunError.tripwire (rt.classify q)) ∧
    (∀ t, (runnerRun rt q).outcome ≠ Except.ok t) := by
  unfold runnerRun research_guardrail
  simp [h]

/-- Witness for C1: the always-rejecting runtime on an out-of-scope
query invokes no specialist and surfaces the tripwire signal with the
guardrail's output. -/
theorem guardrail_reject_no_specialist_w :
    (runnerRun rtReject jokeQuery).invoked = [] ∧
    (runnerRun rtReject jokeQuery).outcome
      = Except.error (RunError.tripwire (rtReject.classify jokeQuery)) ∧
    (∀ t, (runnerRun rtReject jokeQuery).outcome ≠ Except.ok t) :=
  guardrail_reject_no_specialist rtReject jokeQuery rfl

/-- Claim C4: whenever the Guardrail Evaluator returns acceptance flag
true, exactly one specialist agent is invoked, that agent belongs to the
configured candidate set of two, the run's outcome is that single agent's
final textual response, and the submit handler renders exactly that
text. -/
theorem accepted_query_single_specialist (rt : Runtime) (q : String)
    (h : (rt.classify q).is_research = true) :
    (runnerRun rt q).invoked = [chooseSpecialist rt q] ∧
    (runnerRun rt q).invoked.length = 1 ∧
    chooseSpecialist rt q ∈ triage_agent.handoffs ∧
    triage_agent.handoffs.length = 2 ∧
    (runnerRun rt q).outcome
      = Except.ok (rt.respond (chooseSpecialist rt q) q) ∧
    UIEvent.render (rt.respond (chooseSpecialist rt q) q) ∈ submitTrace rt q := by
  have hrun : runnerRun rt q =
      { guardrailChecked := [q]
        invoked := [chooseSpecialist rt q]
        outcome := Except.ok (rt.respond (chooseSpecialist rt q) q) } := by
    unfold runnerRun research_guardrail
    simp [h]
  refine ⟨?_, ?_, chooseSpecialist_mem rt q, rfl, ?_, ?_⟩ <;>
    simp [hrun, submitTrace]

/-- Witness for C4: the always-accepting runtime on an in-scope query
invokes exactly the selected specialist and renders its response. -/
theorem accepted_query_single_specialist_w :
    (runnerRun rtAccept quarkQuery).invoked
      = [chooseSpecialist rtAccept quarkQuery] ∧
    (runnerRun rtAccept quarkQuery).invoked.length = 1 ∧
    chooseSpecialist rtAccept quarkQuery ∈ triage_agent.handoffs ∧
    triage_agent.handoffs.length = 2 ∧
    (runnerRun rtAccept quarkQuery).outcome
      = Except.ok (rtAccept.respond (chooseSpecialist rtAccept quarkQuery) quarkQuery) ∧
    UIEvent.render (rtAccept.respond (chooseSpecialist rtAccept quarkQuery) quarkQuery)
      ∈ submitTrace rtAccept quarkQuery :=
  accepted_query_single_specialist rtAccept quarkQuery rfl

/-- Counterexample to claim C5: the claim says the UI blocks showing a
busy indicator until the route call completes or fails.  In `app.py` the
spinner block encloses only `time.sleep(10)` and is closed before
`Runner.run` is awaited, so on a concrete submit the unique runtime call
happens with no busy indicator open (`busyDuring` is false even though
the trace holds exactly one call). -/
theorem spinner_not_during_call_cex :
    busyDuring (submitTrace rtAccept quarkQuery) = false ∧
    countCalls (submitTrace rtAccept quarkQuery) = 1 := by
  constructor <;> rfl

/-- Claim C5 as amended: each submit performs exactly one runtime
invocation, synchronously; the busy indicator is shown only during a
fixed ten-second sleep that completes before the call is issued; after
the call, the handler renders the response text when the call succeeded
and renders nothing when it failed (the failure propagates out of the
script unhandled). -/
theorem submit_sync_single_call (rt : Runtime) (q : String) :
    countCalls (submitTrace rt q) = 1 ∧
    (submitTrace rt q).take 4
      = [UIEvent.spinnerStart, UIEvent.sleepEv 10, UIEvent.spinnerStop,
         UIEvent.runtimeCall q] ∧
    (∀ t, (runnerRun rt q).outcome = Except.ok t →
      submitTrace rt q
        = [UIEvent.spinnerStart, UIEvent.sleepEv 10, UIEvent.spinnerStop,
           UIEvent.runtimeCall q, UIEvent.render t]) ∧
    (∀ e, (runnerRun rt q).outcome = Except.error e →
      submitTrace rt q
        = [UIEvent.spinnerStart, UIEvent.sleepEv 10, UIEvent.spinnerStop,
           UIEvent.runtimeCall q]) := by
  cases hout : (runnerRun rt q).outcome with
  | ok t =>
    refine ⟨?_, ?_, ?_, ?_⟩ <;>
      simp [submitTrace, countCalls, hout, isCallEvent]
  | error e =>
    refine ⟨?_, ?_, ?_, ?_⟩ <;>
      simp [submitTrace, countCalls, hout, isCallEvent]

/-- Witness for the amended C5: on a concrete accepted submit the full
trace is spinner, sleep, spinner close, the single call, then the
rendered response. -/
theorem submit_sync_single_call_w :
    submitTrace rtAccept quarkQuery
      = [UIEvent.spinnerStart, UIEvent.sleepEv 10, UIEvent.spinnerStop,
         UIEvent.runtimeCall quarkQuery,
         UIEvent.render (rtAccept.respond (chooseSpecialist rtAccept quarkQuery) quarkQuery)] :=
  (submit_sync_single_call rtAccept quarkQuery).2.2.1
    (rtAccept.respond (chooseSpecialist rtAccept quarkQuery) quarkQuery) rfl

/-- Claim C7: submitting the empty query string still sends it to the
Guardrail Evaluator — the run consults the guardrail on exactly the empty
input and the submit handler still performs its single runtime call — and
the verdict is the deterministic outcome of the evaluator: the run aborts
with the tripwire signal precisely when the classification of the empty
string has acceptance flag false.  There is no local short-circuit for
empty input. -/
theorem empty_query_reaches_guardrail (rt : Runtime) :
    (runnerRun rt emptyString).guardrailChecked = [emptyString] ∧
    countCalls (submitTrace rt emptyString) = 1 ∧
    ((runnerRun rt emptyString).outcome
        = Except.error (RunError.tripwire (rt.classify emptyString))
      ↔ (rt.classify emptyString).is_research = false) := by
  refine ⟨?_, ?_, ?_⟩
  · unfold runnerRun research_guardrail
    cases h : (rt.classify emptyString).is_research <;> simp [h]
  · cases hout : (runnerRun rt emptyString).outcome <;>
      simp [submitTrace, countCalls, hout, isCallEvent]
  · unfold runnerRun research_guardrail
    cases h : (rt.classify emptyString).is_research <;> simp [h]

/-- Claim C8: on every submit, the fixed ten-second sleep event occurs
strictly before the unique external runtime call: the first four events
are always spinner open, the constant-duration sleep, spinner close, and
only then the call (position 1 versus position 3 of the trace), and the
trace holds exactly one call. -/
theorem fixed_delay_before_call (rt : Runtime) (q : String) :
    (submitTrace rt q).take 4
      = [UIEvent.spinnerStart, UIEvent.sleepEv 10, UIEvent.spinnerStop,
         UIEvent.runtimeCall q] ∧
    countCalls (submitTrace rt q) = 1 := by
  cases hout : (runnerRun rt q).outcome <;>
    simp [submitTrace, countCalls, hout, isCallEvent]

/-- Claim C10: every run of the front-end script unconditionally
overwrites the process-wide OPENAI_API_KEY environment variable with the
current credential-input value (whatever the previous environment held),
sets the tracing export key from that same value, and touches no other
environment variable; in particular, before any credential is entered the
input is the empty string and both are set to it. -/
theorem credential_env_overwrite (env0 : String → Option String)
    (openai_key : String) :
    (scriptStartup env0 openai_key).env apiKeyVar = some openai_key ∧
    (scriptStartup env0 openai_key).tracing_export_api_key = some openai_key ∧
    ∀ k, k ≠ apiKeyVar → (scriptStartup env0 openai_key).env k = env0 k := by
  refine ⟨?_, ?_, ?_⟩
  · simp [scriptStartup]
  · simp [scriptStartup]
  · intro k hk
    simp [scriptStartup, hk]

/-- Witness for C10: starting from an empty environment with the
credential input still empty, the API key variable and the tracing key
are both set to the empty string, and an unrelated variable stays
untouched. -/
theorem credential_env_overwrite_w :
    (scriptStartup (fun _ => none) emptyString).env apiKeyVar
      = some emptyString ∧
    (scriptStartup (fun _ => none) emptyString).tracing_export_api_key
      = some emptyString ∧
    (scriptStartup (fun _ => none) emptyString).env homeVar = none :=
  ⟨(credential_env_overwrite (fun _ => none) emptyString).1,
   (credential_env_overwrite (fun _ => none) emptyString).2.1,
   (credential_env_overwrite (fun _ => none) emptyString).2.2 homeVar (by decide)⟩
